import Mathlib

/-!
Shallow embedding of `extractor.py`, the single source file of this repository
(a Jira issue-extraction pipeline), together with theorems settling the frozen
claims about it.

Modelling conventions, used consistently below:

* A decoded JSON body (what Python's `response.json()` produces) is a `PyVal`.
* A Python exception that escapes a function uncaught is modelled by
  `Except.error (e : PyExc)`; a normal return by `Except.ok`.
* The HTTP layer is external to the program, so the outcome of the single
  `requests.get` call is an *input* of the embedded pipeline (`HttpResponse`):
  `error` is a connection failure or a non-2xx status (both surface as a
  `requests.exceptions.RequestException`, the latter via `raise_for_status`),
  and `ok body` is a 2xx response whose body either failed JSON decoding
  (`body = none`, a `JSONDecodeError`) or decoded to a value (`body = some v`).
* Writing the output file is likewise external: `writeOk = false` means the
  write raises an `OSError` (e.g. permission denied).
* Machine strings are Lean `String`s; character-level operations are written
  over `List Char` (`String.data`). Python's `str.strip` also removes Unicode
  whitespace; the embedding models the ASCII whitespace characters, which is
  the relevant fragment for every claim.
-/

/-- A decoded JSON value as Python sees it (`None`, `bool`, `int`, `str`,
`list`, `dict`). Floats do not occur in any claim and are omitted. -/
inductive PyVal where
  | none
  | bool (b : Bool)
  | int (n : Int)
  | str (s : String)
  | list (xs : List PyVal)
  | dict (kvs : List (String × PyVal))

/-- Whether a `PyVal` is a Python `str` (`isinstance(text, str)`). -/
def PyVal.isStr : PyVal → Bool
  | .str _ => true
  | _ => false

/-- Escapes used by Python `repr` of a string (backslash, carriage return,
newline, tab, quote); enough to make container representations free of raw
control characters, as Python's are. -/
def pyEscape : List Char → List Char
  | [] => []
  | '\\' :: r => '\\' :: '\\' :: pyEscape r
  | '\r' :: r => '\\' :: 'r' :: pyEscape r
  | '\n' :: r => '\\' :: 'n' :: pyEscape r
  | '\t' :: r => '\\' :: 't' :: pyEscape r
  | '\x27' :: r => '\\' :: '\x27' :: pyEscape r
  | c :: r => c :: pyEscape r

mutual

/-- Python `repr` of a decoded JSON value (the form used for elements inside
`str` of a list or dict). -/
def pyRepr : PyVal → String
  | .none => "None"
  | .bool true => "True"
  | .bool false => "False"
  | .int n => toString n
  | .str s => "\x27" ++ String.mk (pyEscape s.data) ++ "\x27"
  | .list xs => "[" ++ String.intercalate ", " (pyReprList xs) ++ "]"
  | .dict kvs => "\x7b" ++ String.intercalate ", " (pyReprPairs kvs) ++ "\x7d"

/-- `repr` of each element of a Python list. -/
def pyReprList : List PyVal → List String
  | [] => []
  | v :: vs => pyRepr v :: pyReprList vs

/-- `repr` of each `key: value` entry of a Python dict. -/
def pyReprPairs : List (String × PyVal) → List String
  | [] => []
  | (k, v) :: kvs =>
    ("\x27" ++ String.mk (pyEscape k.data) ++ "\x27: " ++ pyRepr v) :: pyReprPairs kvs

end

/-- Python `str(x)`: identity on strings, `repr`-like rendering otherwise. -/
def pyStr : PyVal → String
  | .str s => s
  | v => pyRepr v

/-- The ASCII whitespace characters removed by Python `str.strip()`. -/
def isPySpace (c : Char) : Bool :=
  c == ' ' || c == '\t' || c == '\n' || c == '\r' || c == '\x0b' || c == '\x0c'

/-- `str.lstrip()` over characters. -/
def lstrip (l : List Char) : List Char := l.dropWhile isPySpace

/-- `str.rstrip()` over characters. -/
def rstrip (l : List Char) : List Char := (l.reverse.dropWhile isPySpace).reverse

/-- `str.strip()` over characters (line 108 of `extractor.py`). -/
def pyStrip (l : List Char) : List Char := rstrip (lstrip l)

/-- `text.replace('\r\n', '\n')` (line 109): left-to-right, non-overlapping. -/
def replaceCRLF : List Char → List Char
  | [] => []
  | [c] => [c]
  | c :: d :: rest =>
    if c = '\r' ∧ d = '\n' then '\n' :: replaceCRLF rest
    else c :: replaceCRLF (d :: rest)

/-- `text.replace('\r', '\n')` (line 110): single-character substitution. -/
def replaceCR (l : List Char) : List Char :=
  l.map (fun c => if c = '\r' then '\n' else c)

/-- Lines 108-112 of `clean_text` applied to a string value:
strip, then `\r\n -> \n`, then `\r -> \n`. -/
def cleanStr (s : String) : String :=
  String.mk (replaceCR (replaceCRLF (pyStrip s.data)))

/-- `clean_text` (lines 91-112 of `extractor.py`): `None -> ""`; non-strings
are passed through `str()`; then strip and line-break normalization. Total:
no operation in the Python body can raise. -/
def clean_text : PyVal → String
  | .none => ""
  | .str s => cleanStr s
  | v => cleanStr (pyStr v)

/-- `create_jql_query` (lines 216-231): equality clause for a single
component, membership clause (input order preserved) otherwise. -/
def create_jql_query (project : String) (components : List String) : String :=
  if components.length = 1 then
    "project = " ++ project ++ " AND component = \"" ++ components.headD "" ++ "\""
  else
    "project = " ++ project ++ " AND component IN (" ++
      String.intercalate ", " (components.map (fun comp => "\"" ++ comp ++ "\"")) ++ ")"

/-- `s.lower()` over the ASCII fragment. -/
def toLowerStr (s : String) : String := String.mk (s.data.map Char.toLower)

/-- `s.replace(a, b)` for single characters. -/
def replaceCharStr (a b : Char) (s : String) : String :=
  String.mk (s.data.map (fun c => if c = a then b else c))

/-- `comp.lower().replace(' ', '_').replace('/', '_')` (lines 245, 248, 424). -/
def safe_name (comp : String) : String :=
  replaceCharStr '/' '_' (replaceCharStr ' ' '_' (toLowerStr comp))

/-- `generate_output_filename` (lines 233-252): one component names the file
after it; two or three join the safe names; four or more collapse to the
constant `multiple_components` name. -/
def generate_output_filename (components : List String) (project : String) : String :=
  if components.length = 1 then
    toLowerStr project ++ "_" ++ safe_name (components.headD "") ++ "_issues.csv"
  else if components.length ≤ 3 then
    toLowerStr project ++ "_" ++
      String.intercalate "_" (components.map safe_name) ++ "_issues.csv"
  else
    toLowerStr project ++ "_multiple_components_issues.csv"

/-- A Python exception escaping a function uncaught. `extract_jira_issues_to_csv`
catches only `requests.exceptions.RequestException` and `json.JSONDecodeError`
(lines 84-89); everything below can escape. -/
inductive PyExc where
  | keyError (k : String)
  | typeError
  | attributeError
  | osError

/-- The outcome of the single `requests.get` call of the pipeline (line 45)
followed by `raise_for_status` (line 46) and `response.json()` (line 49):
`error` = connection failure or non-2xx status (a `RequestException`);
`ok none` = 2xx but the body is not valid JSON (a `JSONDecodeError`);
`ok (some v)` = 2xx with decoded body `v`. -/
inductive HttpResponse where
  | error
  | ok (body : Option PyVal)

/-- `v[k]` for a string key: `KeyError` when the dict lacks the key,
`TypeError` when `v` is not a dict. -/
def pySubscript : PyVal → String → Except PyExc PyVal
  | .dict kvs, k =>
    match kvs.lookup k with
    | some v => .ok v
    | Option.none => .error (.keyError k)
  | _, _ => .error .typeError

/-- `v.get(k, dflt)`: dict lookup with default; `AttributeError` when `v`
is not a dict. -/
def pyGet (v : PyVal) (k : String) (dflt : PyVal) : Except PyExc PyVal :=
  match v with
  | .dict kvs => .ok ((kvs.lookup k).getD dflt)
  | _ => .error .attributeError

/-- `for x in v`: lists yield their elements, strings their characters,
dicts their keys; other values raise `TypeError`. -/
def pyIter : PyVal → Except PyExc (List PyVal)
  | .list xs => .ok xs
  | .str s => .ok (s.data.map (fun c => .str (String.mk [c])))
  | .dict kvs => .ok (kvs.map (fun kv => .str kv.1))
  | _ => .error .typeError

/-- One extracted issue row (lines 59-65): the raw `issue['key']` value plus
the four `clean_text`-normalized text fields. -/
structure Row where
  key : PyVal
  summary : String
  description : String
  root_cause : String
  corrective_action : String

/-- Lines 56-65 for one element of `data['issues']`: `issue['fields']`, then
the row dict in source evaluation order (`key`, `summary`, `description`,
`customfield_10606`, `customfield_11222`), each text field defaulted to `''`
via `.get` and passed through `clean_text`. -/
def extractIssue (issue : PyVal) : Except PyExc Row := do
  let fields ← pySubscript issue "fields"
  let key ← pySubscript issue "key"
  let summary ← pyGet fields "summary" (.str "")
  let description ← pyGet fields "description" (.str "")
  let root ← pyGet fields "customfield_10606" (.str "")
  let corrective ← pyGet fields "customfield_11222" (.str "")
  .ok { key := key, summary := clean_text summary, description := clean_text description,
        root_cause := clean_text root, corrective_action := clean_text corrective }

/-- The loop of lines 55-67, accumulating `extracted_data` in order; the first
uncaught exception aborts the loop (and, uncaught, the whole call). -/
def extractRows : List PyVal → Except PyExc (List Row)
  | [] => .ok []
  | issue :: rest => do
    let row ← extractIssue issue
    let rows ← extractRows rest
    .ok (row :: rows)

/-- Where the `try` body of `extract_jira_issues_to_csv` stands just before
the `df.to_csv` write (line 73): `caught` = a `RequestException` or
`JSONDecodeError` was raised and handled (lines 84-89); `raised e` = an
exception the handlers do not cover escaped earlier (e.g. `data['total']` at
line 50 or `data['issues']` at line 55 on a missing key); `rows rs` = the
extraction loop completed with rows `rs`. -/
inductive ExtractStep where
  | caught
  | raised (e : PyExc)
  | rows (rs : List Row)

/-- Lines 42-70: request outcome, JSON decode, `data['total']` (printed at
line 50), `data['issues']`, the extraction loop, `pd.DataFrame(extracted_data)`. -/
def parseAndExtract : HttpResponse → ExtractStep
  | .error => .caught
  | .ok Option.none => .caught
  | .ok (Option.some data) =>
    match pySubscript data "total" with
    | .error e => .raised e
    | .ok _ =>
      match pySubscript data "issues" with
      | .error e => .raised e
      | .ok issuesVal =>
        match pyIter issuesVal with
        | .error e => .raised e
        | .ok issues =>
          match extractRows issues with
          | .error e => .raised e
          | .ok rs => .rows rs

/-- Minimal CSV quoting as `pandas.to_csv` performs it (QUOTE_MINIMAL):
quote a cell containing a delimiter, quote, or line break, doubling quotes. -/
def csvEscape : List Char → List Char
  | [] => []
  | '"' :: r => '"' :: '"' :: csvEscape r
  | c :: r => c :: csvEscape r

/-- One CSV cell under minimal quoting. -/
def csvCell (s : String) : String :=
  if s.data.any (fun c => c == ',' || c == '"' || c == '\n' || c == '\r') then
    "\"" ++ String.mk (csvEscape s.data) ++ "\""
  else s

/-- The cell written for the raw `key` value (pandas stringifies non-strings). -/
def keyCell : PyVal → String
  | .str s => s
  | v => pyStr v

/-- One data line of the output CSV. -/
def rowLine (r : Row) : String :=
  String.intercalate ","
    [csvCell (keyCell r.key), csvCell r.summary, csvCell r.description,
     csvCell r.root_cause, csvCell r.corrective_action]

/-- The fixed header of the output file (column order of lines 59-65). -/
def csvHeader : String := "key,summary,description,root_cause,corrective_action"

/-- `df.to_csv(output_file, index=False, encoding='utf-8')` (line 73).
`pd.DataFrame([])` (the zero-row case) has *no columns*, so pandas writes an
empty header: a blank line, not the five-column header. -/
def dfToCsv (rows : List Row) : String :=
  if rows.isEmpty then "\n"
  else String.intercalate "\n" (csvHeader :: rows.map rowLine) ++ "\n"

/-- What one call of `extract_jira_issues_to_csv` does: `result` is the
returned DataFrame (`.ok rows`) or the uncaught exception (`.error e`);
`file` is the content written to `output_file`, when the write happened. -/
structure PipelineOutcome where
  result : Except PyExc (List Row)
  file : Option String

/-- `extract_jira_issues_to_csv` (lines 6-89). `jira_url`, `pat_token` and
`jql_query` only parameterize the external HTTP request, whose outcome is the
`resp` argument; `output_file` is the external write target, whose success is
`writeOk` (`false` = the write raises `OSError`, which no handler catches).
After a successful write, the summary print at line 79 evaluates
`df['root_cause']`, which raises `KeyError` exactly when the DataFrame has no
rows (hence no columns); otherwise the DataFrame is returned (line 82).
The two handlers (lines 84-89) both return `pd.DataFrame()`, the empty
DataFrame, with no file written. -/
def extract_jira_issues_to_csv (resp : HttpResponse) (writeOk : Bool) : PipelineOutcome :=
  match parseAndExtract resp with
  | .caught => ⟨.ok [], Option.none⟩
  | .raised e => ⟨.error e, Option.none⟩
  | .rows rs =>
    if writeOk then
      if rs.isEmpty then ⟨.error (.keyError "root_cause"), some (dfToCsv rs)⟩
      else ⟨.ok rs, some (dfToCsv rs)⟩
    else ⟨.error .osError, Option.none⟩

/-- `results[component] = df` on a Python dict: replace in place if the key
exists, append otherwise (insertion order preserved). -/
def dictInsert {α : Type} (d : List (String × α)) (k : String) (v : α) :
    List (String × α) :=
  if d.any (fun kv => kv.1 == k) then
    d.map (fun kv => if kv.1 == k then (k, v) else kv)
  else d ++ [(k, v)]

/-- The per-component loop of `batch_extract_components` (lines 420-434):
build the equality-only JQL and the output path (request/write-target strings;
their external effects are represented by `fetchOf`/`writeOk`), run the
pipeline, record the returned DataFrame. An exception escaping
`extract_jira_issues_to_csv` is not handled by the loop: it aborts the batch. -/
def batchLoop (fetchOf : String → HttpResponse) (writeOk : String → Bool)
    (project output_dir : String) :
    List String → List (String × List Row) → Except PyExc (List (String × List Row))
  | [], results => .ok results
  | component :: rest, results =>
    let _jql := "project = " ++ project ++ " AND component = \"" ++ component ++ "\""
    let _output_file := output_dir ++ "/" ++ toLowerStr project ++ "_" ++
      safe_name component ++ "_issues.csv"
    match (extract_jira_issues_to_csv (fetchOf component) (writeOk component)).result with
    | .error e => .error e
    | .ok df => batchLoop fetchOf writeOk project output_dir rest (dictInsert results component df)

/-- `batch_extract_components` (lines 393-436): ensure the output directory
(modelled as always succeeding; no claim concerns it), then run the pipeline
once per component, collecting `{component: DataFrame}`. -/
def batch_extract_components (fetchOf : String → HttpResponse) (writeOk : String → Bool)
    (project : String) (components : List String) (output_dir : String) :
    Except PyExc (List (String × List Row)) :=
  batchLoop fetchOf writeOk project output_dir components []

/-- The rows of a pipeline result that did return a DataFrame. -/
def resultRows : Except PyExc (List Row) → List Row
  | .ok rs => rs
  | .error _ => []


/-! ### Lemmas about the character-level normalization of `clean_text` -/

theorem head?_dropWhile_not (p : Char → Bool) (l : List Char) (c : Char)
    (h : (l.dropWhile p).head? = some c) : p c = false := by
  induction l with
  | nil => simp at h
  | cons a t ih =>
    rw [List.dropWhile_cons] at h
    by_cases hp : p a
    · simp only [hp, if_true] at h
      exact ih h
    · rw [if_neg (by simp [hp])] at h
      simp only [List.head?_cons, Option.some.injEq] at h
      subst h
      simpa using hp

theorem dropWhile_eq_self_of_head (p : Char → Bool) (l : List Char)
    (h : ∀ c, l.head? = some c → p c = false) : l.dropWhile p = l := by
  cases l with
  | nil => rfl
  | cons a t =>
    rw [List.dropWhile_cons]
    simp [h a rfl]

theorem getLast?_dropWhile (p : Char → Bool) (l : List Char)
    (h : l.dropWhile p ≠ []) : (l.dropWhile p).getLast? = l.getLast? := by
  induction l with
  | nil => simp at h
  | cons a t ih =>
    rw [List.dropWhile_cons] at h ⊢
    by_cases hp : p a
    · simp only [hp, if_true] at h ⊢
      have ht : t ≠ [] := by
        intro he
        subst he
        simp at h
      rw [ih h]
      cases t with
      | nil => exact absurd rfl ht
      | cons b t' => exact (List.getLast?_cons_cons ..).symm
    · simp [hp]

theorem getLast?_cons_of_ne_nil (a : Char) (xs : List Char) (h : xs ≠ []) :
    (a :: xs).getLast? = xs.getLast? := by
  cases xs with
  | nil => exact absurd rfl h
  | cons b t => exact List.getLast?_cons_cons ..

theorem pyStrip_head (l : List Char) (c : Char)
    (h : (pyStrip l).head? = some c) : isPySpace c = false := by
  unfold pyStrip rstrip at h
  rw [List.head?_reverse] at h
  have hne : (lstrip l).reverse.dropWhile isPySpace ≠ [] := by
    intro he
    rw [he] at h
    simp at h
  rw [getLast?_dropWhile _ _ hne, List.getLast?_reverse] at h
  exact head?_dropWhile_not _ _ _ h

theorem pyStrip_getLast (l : List Char) (c : Char)
    (h : (pyStrip l).getLast? = some c) : isPySpace c = false := by
  unfold pyStrip rstrip at h
  rw [List.getLast?_reverse] at h
  exact head?_dropWhile_not _ _ _ h

theorem pyStrip_eq_self (l : List Char)
    (hh : ∀ c, l.head? = some c → isPySpace c = false)
    (hl : ∀ c, l.getLast? = some c → isPySpace c = false) : pyStrip l = l := by
  unfold pyStrip lstrip rstrip
  rw [dropWhile_eq_self_of_head _ _ hh]
  rw [dropWhile_eq_self_of_head _ _ (fun c hc => hl c (by rwa [List.head?_reverse] at hc))]
  exact List.reverse_reverse l

theorem replaceCRLF_cons_ne (c : Char) (t : List Char) (h : c ≠ '\r') :
    replaceCRLF (c :: t) = c :: replaceCRLF t := by
  cases t with
  | nil => rfl
  | cons d r => simp [replaceCRLF, h]

theorem replaceCRLF_of_no_cr (l : List Char) (h : '\r' ∉ l) : replaceCRLF l = l := by
  induction l with
  | nil => rfl
  | cons c t ih =>
    have hc : c ≠ '\r' := fun he => h (he ▸ List.mem_cons_self c t)
    rw [replaceCRLF_cons_ne c t hc, ih (fun hm => h (List.mem_cons_of_mem c hm))]

theorem replaceCRLF_ne_nil (l : List Char) (h : l ≠ []) : replaceCRLF l ≠ [] := by
  match l with
  | [] => exact absurd rfl h
  | [c] => simp [replaceCRLF]
  | c :: d :: r =>
    rw [replaceCRLF]
    split <;> simp

theorem replaceCRLF_getLast_aux : ∀ (n : Nat) (l : List Char), l.length ≤ n →
    ∀ c, l.getLast? = some c → isPySpace c = false →
    (replaceCRLF l).getLast? = some c := by
  intro n
  induction n with
  | zero =>
    intro l hl c h _
    have : l = [] := List.length_eq_zero.mp (Nat.le_zero.mp hl)
    subst this
    simp at h
  | succ n ih =>
    intro l hl c h hc
    match l with
    | [] => simp at h
    | [a] =>
      simp only [List.getLast?_singleton, Option.some.injEq] at h
      subst h
      rfl
    | a :: b :: r =>
      rw [replaceCRLF]
      rw [List.getLast?_cons_cons] at h
      split
      · next hab =>
        cases r with
        | nil =>
          simp only [List.getLast?_singleton, Option.some.injEq] at h
          subst h
          rw [hab.2] at hc
          simp [isPySpace] at hc
        | cons x r' =>
          rw [List.getLast?_cons_cons] at h
          have hr : (x :: r').length ≤ n := by
            simp only [List.length_cons] at hl ⊢
            omega
          rw [getLast?_cons_of_ne_nil _ _ (replaceCRLF_ne_nil _ (by simp))]
          exact ih (x :: r') hr c h hc
      · next hab =>
        have hbr : (b :: r).length ≤ n := by
          simp only [List.length_cons] at hl ⊢
          omega
        rw [getLast?_cons_of_ne_nil _ _ (replaceCRLF_ne_nil _ (by simp))]
        exact ih (b :: r) hbr c h hc

theorem replaceCRLF_getLast (l : List Char) (c : Char)
    (h : l.getLast? = some c) (hc : isPySpace c = false) :
    (replaceCRLF l).getLast? = some c :=
  replaceCRLF_getLast_aux l.length l (Nat.le_refl _) c h hc

theorem replaceCR_no_cr (l : List Char) : '\r' ∉ replaceCR l := by
  intro hmem
  rw [replaceCR, List.mem_map] at hmem
  obtain ⟨c, _, hEq⟩ := hmem
  by_cases hcr : c = '\r'
  · rw [if_pos hcr] at hEq
    exact absurd hEq (by decide)
  · rw [if_neg hcr] at hEq
    exact hcr hEq

theorem replaceCR_of_no_cr (l : List Char) (h : '\r' ∉ l) : replaceCR l = l := by
  induction l with
  | nil => rfl
  | cons c t ih =>
    have hc : c ≠ '\r' := fun he => h (he ▸ List.mem_cons_self c t)
    simp only [replaceCR, List.map_cons, if_neg hc]
    have := ih (fun hm => h (List.mem_cons_of_mem c hm))
    rw [replaceCR] at this
    rw [this]

theorem replaceCR_head (l : List Char) (c : Char)
    (h : l.head? = some c) (hc : c ≠ '\r') : (replaceCR l).head? = some c := by
  rw [replaceCR, List.head?_map, h]
  simp [if_neg hc]

theorem replaceCR_getLast (l : List Char) (c : Char)
    (h : l.getLast? = some c) (hc : c ≠ '\r') : (replaceCR l).getLast? = some c := by
  rw [replaceCR, List.getLast?_map, h]
  simp [if_neg hc]

theorem ne_cr_of_not_space (c : Char) (hc : isPySpace c = false) : c ≠ '\r' := by
  intro he
  subst he
  simp [isPySpace] at hc

theorem cleanStr_no_cr (s : String) : '\r' ∉ (cleanStr s).data :=
  replaceCR_no_cr _

theorem cleanStr_stripped (s : String) :
    pyStrip (cleanStr s).data = (cleanStr s).data := by
  show pyStrip (replaceCR (replaceCRLF (pyStrip s.data))) = _
  apply pyStrip_eq_self
  · intro c h
    cases hm : pyStrip s.data with
    | nil => rw [hm] at h; simp [replaceCRLF, replaceCR] at h
    | cons a t =>
      have ha : isPySpace a = false := pyStrip_head s.data a (by rw [hm]; rfl)
      have hane : a ≠ '\r' := ne_cr_of_not_space a ha
      rw [hm, replaceCRLF_cons_ne a t hane] at h
      rw [replaceCR_head (a :: replaceCRLF t) a rfl hane] at h
      cases h
      exact ha
  · intro c h
    cases hm : pyStrip s.data with
    | nil => rw [hm] at h; simp [replaceCRLF, replaceCR] at h
    | cons a t =>
      have hne : pyStrip s.data ≠ [] := by rw [hm]; simp
      obtain ⟨b, hb⟩ := Option.isSome_iff_exists.mp (List.getLast?_isSome.mpr hne)
      have hbw : isPySpace b = false := pyStrip_getLast s.data b hb
      have hbne : b ≠ '\r' := ne_cr_of_not_space b hbw
      have h1 := replaceCRLF_getLast _ b hb hbw
      have h2 := replaceCR_getLast _ b h1 hbne
      rw [h2] at h
      cases h
      exact hbw

theorem cleanStr_idem (s : String) : cleanStr (cleanStr s) = cleanStr s := by
  show String.mk (replaceCR (replaceCRLF (pyStrip (cleanStr s).data))) = _
  rw [cleanStr_stripped, replaceCRLF_of_no_cr _ (cleanStr_no_cr s),
    replaceCR_of_no_cr _ (cleanStr_no_cr s)]

theorem clean_text_eq_cleanStr (v : PyVal) :
    clean_text v = "" ∨ ∃ s, clean_text v = cleanStr s := by
  cases v with
  | none => exact Or.inl rfl
  | bool b => exact Or.inr ⟨_, rfl⟩
  | int n => exact Or.inr ⟨_, rfl⟩
  | str s => exact Or.inr ⟨s, rfl⟩
  | list xs => exact Or.inr ⟨_, rfl⟩
  | dict kvs => exact Or.inr ⟨_, rfl⟩

/-! ### Lemmas about the batch loop -/

theorem dictInsert_fresh {α : Type} (d : List (String × α)) (k : String) (v : α)
    (h : ∀ kv ∈ d, kv.1 ≠ k) : dictInsert d k v = d ++ [(k, v)] := by
  rw [dictInsert, if_neg]
  intro hc
  rw [List.any_eq_true] at hc
  obtain ⟨kv, hm, hk⟩ := hc
  exact h kv hm (eq_of_beq hk)

theorem batchLoop_ok (fetchOf : String → HttpResponse) (writeOk : String → Bool)
    (project output_dir : String) :
    ∀ (cs : List String) (acc : List (String × List Row)),
      cs.Nodup →
      (∀ c ∈ cs, ∀ kv ∈ acc, kv.1 ≠ c) →
      (∀ c ∈ cs, ∃ rows,
        (extract_jira_issues_to_csv (fetchOf c) (writeOk c)).result = Except.ok rows) →
      batchLoop fetchOf writeOk project output_dir cs acc =
        Except.ok (acc ++ cs.map (fun c =>
          (c, resultRows (extract_jira_issues_to_csv (fetchOf c) (writeOk c)).result))) := by
  intro cs
  induction cs with
  | nil => intro acc _ _ _; simp [batchLoop]
  | cons c rest ih =>
    intro acc hnd hfresh hok
    obtain ⟨rows, hr⟩ := hok c (List.mem_cons_self c rest)
    have hres : resultRows (extract_jira_issues_to_csv (fetchOf c) (writeOk c)).result = rows := by
      rw [hr]
      rfl
    have hcnotin : c ∉ rest := (List.nodup_cons.mp hnd).1
    simp only [batchLoop, hr]
    rw [dictInsert_fresh acc c rows (fun kv hkv => hfresh c (List.mem_cons_self c rest) kv hkv)]
    rw [ih (acc ++ [(c, rows)]) (List.nodup_cons.mp hnd).2 ?fresh ?ok]
    case fresh =>
      intro c' hc' kv hkv
      rcases List.mem_append.mp hkv with hkv | hkv
      · exact hfresh c' (List.mem_cons_of_mem c hc') kv hkv
      · have : kv = (c, rows) := by simpa using hkv
        subst this
        intro he
        have hce : c = c' := he
        exact hcnotin (hce.symm ▸ hc')
    case ok =>
      intro c' hc'
      exact hok c' (List.mem_cons_of_mem c hc')
    rw [List.map_cons, hres, List.append_assoc]
    rfl

theorem lookup_map_self (g : String → List Row) :
    ∀ (cs : List String) (c : String), c ∈ cs →
      (cs.map (fun x => (x, g x))).lookup c = some (g c) := by
  intro cs
  induction cs with
  | nil => intro c hc; simp at hc
  | cons x rest ih =>
    intro c hc
    by_cases hxc : c = x
    · subst hxc
      simp [List.lookup]
    · have hcr : c ∈ rest := by
        rcases List.mem_cons.mp hc with h | h
        · exact absurd h hxc
        · exact h
      rw [List.map_cons]
      show List.lookup c ((x, g x) :: rest.map fun x => (x, g x)) = some (g c)
      have hbe : (c == x) = false := beq_eq_false_iff_ne.mpr hxc
      simp only [List.lookup, hbe]
      exact ih c hcr

/-! ### Concrete fixtures used by witnesses and counterexamples -/

/-- A 2xx body with zero matching issues: `{"total": 0, "issues": []}`. -/
def zeroResp : HttpResponse :=
  .ok (some (.dict [("total", .int 0), ("issues", .list [])]))

/-- A well-formed 2xx body that lacks the `issues` record-list field. -/
def missingIssuesResp : HttpResponse :=
  .ok (some (.dict [("total", .int 0)]))

/-- A 2xx body with exactly one issue. -/
def oneIssueBody : PyVal :=
  .dict [("total", .int 1), ("issues", .list [
    .dict [("key", .str "SPRLL-9"), ("fields", .dict [("summary", .str "Lens cracked")])]])]

/-- The row extracted from `oneIssueBody`. -/
def oneIssueRow : Row := ⟨.str "SPRLL-9", "Lens cracked", "", "", ""⟩

/-- A batch fixture: `Battery` suffers a transport failure, every other
component succeeds with one issue. -/
def batchFetch : String → HttpResponse := fun c =>
  if c = "Battery" then .error else .ok (some oneIssueBody)

/-- A batch fixture: `Battery` suffers a transport failure, every other
component succeeds with *zero* issues. -/
def batchFetchZero : String → HttpResponse := fun c =>
  if c = "Battery" then .error else zeroResp

/-- The response of the spec's scenario:
`{"total":2,"issues":[{"key":"SPRLL-1","fields":{"summary":"Crack",
"customfield_10606":null,"customfield_11222":"Replace enclosure"}},
{"key":"SPRLL-2","fields":{}}]}`. -/
def scenarioResp : HttpResponse :=
  .ok (some (.dict [("total", .int 2), ("issues", .list [
    .dict [("key", .str "SPRLL-1"), ("fields", .dict [("summary", .str "Crack"),
      ("customfield_10606", PyVal.none), ("customfield_11222", .str "Replace enclosure")])],
    .dict [("key", .str "SPRLL-2"), ("fields", .dict [])]])]))

/-! ### The claims -/

/-- C1 counterexample: the value `extract_jira_issues_to_csv` returns on a
transport failure is the plain empty DataFrame (`Except.ok []`) with no
failure mark of any kind — exactly the empty record sequence a zero-issue
response assembles (`parseAndExtract zeroResp = .rows []`); and a zero-issue
success does not even return a comparable success value: it raises `KeyError`
after writing a blank file. So the failure signal is not distinguishable from
a successful fetch that matched zero issues. -/
theorem C1_counterexample :
    (extract_jira_issues_to_csv HttpResponse.error true).result = Except.ok []
    ∧ parseAndExtract zeroResp = ExtractStep.rows []
    ∧ extract_jira_issues_to_csv zeroResp true
        = ⟨Except.error (PyExc.keyError "root_cause"), some "\n"⟩ :=
  ⟨rfl, rfl, rfl⟩

/-- C1 (amended): on a transport failure (connection error / non-2xx) or a
malformed response body, `extract_jira_issues_to_csv` catches the exception
and returns the empty DataFrame without raising into the batch loop and
without writing a file; but this value carries no failure flag — it is
`Except.ok []`, identical to an empty record set. -/
theorem C1_failure_not_marked (w : Bool) :
    extract_jira_issues_to_csv HttpResponse.error w = ⟨Except.ok [], Option.none⟩
    ∧ extract_jira_issues_to_csv (HttpResponse.ok Option.none) w
        = ⟨Except.ok [], Option.none⟩ :=
  ⟨rfl, rfl⟩

/-- C2 counterexample: a 2xx response whose body is well-formed JSON but lacks
the `issues` field makes the fetch raise an uncaught `KeyError('issues')`
(modelled by `Except.error`): the absence of the record-list field is *not*
handled like a transport error, which returns `Except.ok []`. -/
theorem C2_counterexample :
    extract_jira_issues_to_csv missingIssuesResp true
      = ⟨Except.error (PyExc.keyError "issues"), Option.none⟩ := rfl

/-- C2 (amended): for every well-formed 2xx body that is a JSON object with a
`total` field but no `issues` field, `extract_jira_issues_to_csv` performs no
presence validation and raises an uncaught `KeyError('issues')` past the
pipeline (only `RequestException` and `JSONDecodeError` are caught). -/
theorem C2_missing_issues_raises (w : Bool) (kvs : List (String × PyVal)) (t : PyVal)
    (htotal : kvs.lookup "total" = some t)
    (hissues : kvs.lookup "issues" = Option.none) :
    extract_jira_issues_to_csv (HttpResponse.ok (some (PyVal.dict kvs))) w
      = ⟨Except.error (PyExc.keyError "issues"), Option.none⟩ := by
  simp only [extract_jira_issues_to_csv, parseAndExtract, pySubscript, htotal, hissues]

/-- C2 witness: the amended claim at the concrete body `{"total": 0}`. -/
theorem C2_witness :
    extract_jira_issues_to_csv (HttpResponse.ok (some (PyVal.dict [("total", PyVal.int 0)]))) true
      = ⟨Except.error (PyExc.keyError "issues"), Option.none⟩ :=
  C2_missing_issues_raises true [("total", PyVal.int 0)] (PyVal.int 0) rfl rfl

/-- C3: evaluating the code at the failing input — a successful fetch whose
body is `{"total": 0, "issues": []}` with a writable output path. The claim
(and spec P6) say: empty record sequence, no failure flag, header-only CSV.
The code instead builds `pd.DataFrame([])`, which has *no columns*, so
`to_csv` writes a blank line (not the five-column header), and the summary
print `df['root_cause']` then raises an uncaught `KeyError`, so no DataFrame
is returned at all. -/
theorem C3_zero_match_crash :
    extract_jira_issues_to_csv zeroResp true
      = ⟨Except.error (PyExc.keyError "root_cause"), some "\n"⟩
    ∧ dfToCsv [] ≠ csvHeader ++ "\n" :=
  ⟨rfl, by decide⟩

/-- C4 counterexample: components `["Battery", "Camera"]`, where `Battery`
suffers a transport failure and `Camera` *succeeds* with zero issues. The
claim promises a 2-entry mapping with one failure mark; the code instead
raises an uncaught `KeyError` out of the batch (the zero-issue success
crashes in the summary print), so no mapping is returned. -/
theorem C4_counterexample :
    batch_extract_components batchFetchZero (fun _ => true) "SPRLL"
        ["Battery", "Camera"] "output"
      = Except.error (PyExc.keyError "root_cause") := rfl

/-- C4 (amended): if exactly one component's fetch suffers a transport
failure and every other component's fetch succeeds with at least one issue
and a successful write, then `batch_extract_components` returns a mapping
with one entry per component, in order; the failed component maps to the
empty DataFrame (the only failure marker there is) and each other component
to its own non-empty records; the one failure does not abort the rest. -/
theorem C4_batch_isolation (project output_dir : String) (components : List String)
    (bad : String) (fetchOf : String → HttpResponse) (writeOk : String → Bool)
    (hnd : components.Nodup) (hbad : bad ∈ components)
    (hfail : fetchOf bad = HttpResponse.error)
    (hgood : ∀ c ∈ components, c ≠ bad → ∃ rows, rows ≠ [] ∧
        (extract_jira_issues_to_csv (fetchOf c) (writeOk c)).result = Except.ok rows) :
    ∃ m, batch_extract_components fetchOf writeOk project components output_dir = Except.ok m
      ∧ m.map Prod.fst = components
      ∧ m.length = components.length
      ∧ m.lookup bad = some []
      ∧ (∀ c ∈ components, c ≠ bad →
          m.lookup c
            = some (resultRows (extract_jira_issues_to_csv (fetchOf c) (writeOk c)).result)
          ∧ resultRows (extract_jira_issues_to_csv (fetchOf c) (writeOk c)).result ≠ []) := by
  have hok : ∀ c ∈ components, ∃ rows,
      (extract_jira_issues_to_csv (fetchOf c) (writeOk c)).result = Except.ok rows := by
    intro c hc
    by_cases hcb : c = bad
    · subst hcb
      exact ⟨[], by rw [hfail]; rfl⟩
    · obtain ⟨rows, _, hr⟩ := hgood c hc hcb
      exact ⟨rows, hr⟩
  refine ⟨components.map (fun c =>
      (c, resultRows (extract_jira_issues_to_csv (fetchOf c) (writeOk c)).result)),
      ?_, ?_, ?_, ?_, ?_⟩
  · rw [batch_extract_components]
    exact batchLoop_ok fetchOf writeOk project output_dir components [] hnd (by simp) hok
  · simp [Function.comp_def]
  · simp
  · rw [lookup_map_self _ components bad hbad, hfail]
    rfl
  · intro c hc hcb
    obtain ⟨rows, hne, hr⟩ := hgood c hc hcb
    refine ⟨lookup_map_self _ components c hc, ?_⟩
    rw [hr]
    exact hne

/-- C4 witness: the amended claim at the concrete batch `["Battery","Camera"]`
where `Battery` fails in transport and `Camera` succeeds with one issue. -/
theorem C4_witness :
    ∃ m, batch_extract_components batchFetch (fun _ => true) "SPRLL"
        ["Battery", "Camera"] "output" = Except.ok m
      ∧ m.map Prod.fst = ["Battery", "Camera"]
      ∧ m.length = (["Battery", "Camera"] : List String).length
      ∧ m.lookup "Battery" = some []
      ∧ (∀ c ∈ (["Battery", "Camera"] : List String), c ≠ "Battery" →
          m.lookup c
            = some (resultRows (extract_jira_issues_to_csv (batchFetch c)
                ((fun _ => true) c)).result)
          ∧ resultRows (extract_jira_issues_to_csv (batchFetch c)
                ((fun _ => true) c)).result ≠ []) :=
  C4_batch_isolation "SPRLL" "output" ["Battery", "Camera"] "Battery" batchFetch
    (fun _ => true) (by decide) (by decide) rfl
    (by
      intro c hc hcb
      have hcam : c = "Camera" := by
        rcases List.mem_cons.mp hc with h | h
        · exact absurd h hcb
        · simpa using h
      subst hcam
      exact ⟨[oneIssueRow], by simp, rfl⟩)

/-- C5 counterexample: a fetch that extracts one issue but whose CSV write
fails (e.g. permission denied) makes `extract_jira_issues_to_csv` raise an
uncaught `OSError` (modelled by `Except.error`): the write failure is not
converted to an explicit result value, and the in-memory DataFrame — which a
successful write does return — is not returned. -/
theorem C5_counterexample :
    extract_jira_issues_to_csv (HttpResponse.ok (some oneIssueBody)) false
      = ⟨Except.error PyExc.osError, Option.none⟩
    ∧ (extract_jira_issues_to_csv (HttpResponse.ok (some oneIssueBody)) true).result
      = Except.ok [oneIssueRow] :=
  ⟨rfl, rfl⟩

/-- C5 (amended): whenever the fetch and extraction phases complete (so the
pipeline reaches `df.to_csv`), a write failure escapes as an uncaught
`OSError` — the `try/except` catches only `RequestException` and
`JSONDecodeError` — and the in-memory result is not returned. -/
theorem C5_write_failure_raises (resp : HttpResponse) (rs : List Row)
    (h : parseAndExtract resp = ExtractStep.rows rs) :
    extract_jira_issues_to_csv resp false
      = ⟨Except.error PyExc.osError, Option.none⟩ := by
  simp [extract_jira_issues_to_csv, h]

/-- C5 witness: the amended claim at the concrete one-issue response. -/
theorem C5_witness :
    extract_jira_issues_to_csv (HttpResponse.ok (some oneIssueBody)) false
      = ⟨Except.error PyExc.osError, Option.none⟩ :=
  C5_write_failure_raises (HttpResponse.ok (some oneIssueBody)) [oneIssueRow] rfl

/-- C6: the spec's scenario. The response with two issues produces exactly the
two records claimed: `SPRLL-1` with summary `Crack`, empty description, empty
root cause (the JSON `null` custom field is present, so `.get` returns `None`,
which `clean_text` maps to `""`), corrective action `Replace enclosure`; and
`SPRLL-2` with all four text fields empty. -/
theorem C6_scenario :
    (extract_jira_issues_to_csv scenarioResp true).result =
      Except.ok [⟨.str "SPRLL-1", "Crack", "", "", "Replace enclosure"⟩,
                 ⟨.str "SPRLL-2", "", "", "", ""⟩] := rfl

/-- C7: `clean_text` is total (it is a plain function of any `PyVal`; no
operation in its body can raise); for every input the output contains no
carriage return and is a fixed point of `strip` (no leading or trailing
whitespace); `None` maps to the empty string; and a non-`None` non-string
input goes through `str()` — its canonical string representation — before
the (there vacuous) normalization, e.g. `42 ↦ "42"`, `True ↦ "True"`. -/
theorem C7_clean_text_total :
    (∀ v : PyVal, '\r' ∉ (clean_text v).data
      ∧ pyStrip (clean_text v).data = (clean_text v).data)
    ∧ clean_text PyVal.none = ""
    ∧ (∀ v : PyVal, v.isStr = false → v ≠ PyVal.none →
        clean_text v = cleanStr (pyStr v))
    ∧ clean_text (PyVal.int 42) = "42"
    ∧ clean_text (PyVal.bool true) = "True" := by
  refine ⟨?_, rfl, ?_, rfl, rfl⟩
  · intro v
    rcases clean_text_eq_cleanStr v with h | ⟨s, h⟩
    · rw [h]
      exact ⟨by simp, rfl⟩
    · rw [h]
      exact ⟨cleanStr_no_cr s, cleanStr_stripped s⟩
  · intro v hstr hnone
    cases v with
    | none => exact absurd rfl hnone
    | str s => simp [PyVal.isStr] at hstr
    | bool b => rfl
    | int n => rfl
    | list xs => rfl
    | dict kvs => rfl

/-- C7 witness: the non-string branch of the theorem at the concrete
input `42`. -/
theorem C7_witness :
    clean_text (PyVal.int 42) = cleanStr (pyStr (PyVal.int 42)) :=
  C7_clean_text_total.2.2.1 (PyVal.int 42) rfl (fun h => PyVal.noConfusion h)

/-- C8: `create_jql_query` is a pure deterministic function; the two boundary
examples of the claim hold; and in general one component yields the equality
clause while two or more yield the membership clause listing the quoted
components in input order. -/
theorem C8_create_jql_query :
    (∀ (p : String) (cs : List String), create_jql_query p cs = create_jql_query p cs)
    ∧ create_jql_query "SPRLL" ["Battery"] = "project = SPRLL AND component = \"Battery\""
    ∧ create_jql_query "SPRLL" ["Battery", "Camera"]
        = "project = SPRLL AND component IN (\"Battery\", \"Camera\")"
    ∧ (∀ (p c : String),
        create_jql_query p [c] = "project = " ++ p ++ " AND component = \"" ++ c ++ "\"")
    ∧ (∀ (p c₁ c₂ : String) (rest : List String),
        create_jql_query p (c₁ :: c₂ :: rest) =
          "project = " ++ p ++ " AND component IN (" ++
            String.intercalate ", "
              ((c₁ :: c₂ :: rest).map (fun comp => "\"" ++ comp ++ "\"")) ++ ")") := by
  refine ⟨fun p cs => rfl, rfl, rfl, fun p c => rfl, fun p c₁ c₂ rest => ?_⟩
  rw [create_jql_query, if_neg (by simp)]

/-- Four or more components collapse to the constant multiple-components
name (lines 251-252). -/
theorem filename_many (cs : List String) (p : String) (h : 4 ≤ cs.length) :
    generate_output_filename cs p = toLowerStr p ++ "_multiple_components_issues.csv" := by
  rw [generate_output_filename, if_neg (by omega), if_neg (by omega)]

/-- C9: the three boundary examples of the filename policy hold;
`generate_output_filename` is a pure deterministic function; and for four or
more components the name is independent of the order of the components. -/
theorem C9_generate_output_filename :
    generate_output_filename ["Battery"] "SPRLL" = "sprll_battery_issues.csv"
    ∧ generate_output_filename ["Battery", "Camera"] "SPRLL"
        = "sprll_battery_camera_issues.csv"
    ∧ generate_output_filename ["A", "B", "C", "D"] "SPRLL"
        = "sprll_multiple_components_issues.csv"
    ∧ (∀ (cs : List String) (p : String),
        generate_output_filename cs p = generate_output_filename cs p)
    ∧ (∀ (p : String) (cs cs' : List String), 4 ≤ cs.length → cs.Perm cs' →
        generate_output_filename cs' p = generate_output_filename cs p) := by
  refine ⟨by decide, by decide, by decide, fun cs p => rfl, fun p cs cs' h4 hperm => ?_⟩
  rw [filename_many cs p h4, filename_many cs' p (hperm.length_eq ▸ h4)]

/-- C9 witness: order-independence of the 4+ case at a concrete reordering. -/
theorem C9_witness :
    generate_output_filename ["D", "A", "B", "C"] "SPRLL"
      = generate_output_filename ["A", "B", "C", "D"] "SPRLL" :=
  C9_generate_output_filename.2.2.2.2 "SPRLL" ["A", "B", "C", "D"] ["D", "A", "B", "C"]
    (by decide) (by decide)

/-- C10: `clean_text` is idempotent — feeding its output back (as the string
it is) reproduces it, since the output has no `\r` left to replace and no
leading or trailing whitespace left to strip. -/
theorem C10_clean_text_idempotent (v : PyVal) :
    clean_text (PyVal.str (clean_text v)) = clean_text v := by
  rcases clean_text_eq_cleanStr v with h | ⟨s, h⟩
  · rw [h]
    rfl
  · rw [h]
    exact cleanStr_idem s
